import Mathlib

/-!
Verification of the contact-form relay handler of the Excaliber repository
(src/server/app.py).  The handler is the Flask view function `contact`
(lines 35-87): it validates a JSON payload, builds a plain-text email, reads
the SMTP configuration from environment variables, and relays the message
over SMTP, mapping every outcome to an HTTP response.

The embedding below is a shallow model of that function:
* the JSON payload is an optional record of optional string fields
  (`request.get_json(silent=True)` returning `None` is `Option.none`);
* the process environment is a record of optional strings, one per variable
  the program reads;
* the SMTP network is modelled by an oracle (`SmtpBehavior`) saying, for each
  operation the code may perform, whether it succeeds or raises and with what
  message; the handler run returns the trace of attempted network events and
  whether an opened connection was closed;
* a Python exception that escapes the handler body is `Except.error`, while
  every JSON response produced by the handler is `Except.ok`.
-/

/-- HTTP JSON response produced by `jsonify(...), status` in app.py. -/
structure Response where
  status : Nat
  success : Bool
  message : Option String
  error : Option String
deriving DecidableEq, Repr

/-- The decoded JSON payload: the five field names the handler ever reads.
A `none` field is absent from the JSON object; values are modelled as
strings (the code applies `str(...)` before trimming). -/
structure Payload where
  name : Option String
  email : Option String
  phone : Option String
  message : Option String
  service : Option String
deriving DecidableEq, Repr

/-- The process environment: the variables read by `contact` (lines 58-62)
plus the two read by the `__main__` block, `none` meaning the variable is
unset. -/
structure Env where
  mail_host : Option String
  mail_port : Option String
  mail_user : Option String
  mail_pass : Option String
  to_email : Option String
  bind_port : Option String
  flask_debug : Option String
deriving DecidableEq, Repr

/-- The resolved mail configuration, lines 58-62 of app.py:
host, port (after `int(...)`), user, password, recipient. -/
structure MailConfig where
  host : String
  port : Int
  user : String
  pwd : String
  toAddr : String
deriving DecidableEq, Repr

/-- The email message built in lines 68-74: subject, From, To, optional
Reply-To, and the plain-text content. -/
structure EmailMsg where
  subject : String
  fromAddr : String
  toAddr : String
  replyTo : Option String
  content : String
deriving DecidableEq, Repr

/-- ASCII whitespace, as stripped by Python `str.strip()` (the Unicode
whitespace Python also strips is irrelevant here). -/
def isSpaceChar (c : Char) : Bool :=
  c = ' ' || c = '\t' || c = '\n' || c = '\r' || c = '\x0b' || c = '\x0c'

/-- Python `s.strip()`: drop leading and trailing whitespace. -/
def pyStrip (s : String) : String :=
  ⟨((s.data.dropWhile isSpaceChar).reverse.dropWhile isSpaceChar).reverse⟩

/-- Value of a list of decimal digits. -/
def digitsToNat (l : List Char) : Nat :=
  l.foldl (fun acc c => acc * 10 + (c.toNat - 48)) 0

/-- Parse an unsigned run of decimal digits; `none` if empty or non-digit. -/
def parseDigits (l : List Char) : Option Nat :=
  if l ≠ [] && l.all Char.isDigit then some (digitsToNat l) else none

/-- Model of Python `int(s)` on a string, restricted to an optional sign
followed by decimal digits around optional surrounding whitespace (the only
shapes relevant here); `none` models the `ValueError` raised on any other
input such as `""` or `"abc"`. -/
def pyInt (s : String) : Option Int :=
  match (pyStrip s).data with
  | '-' :: rest => (parseDigits rest).map (fun n => -(n : Int))
  | '+' :: rest => (parseDigits rest).map (fun n => (n : Int))
  | l => (parseDigits l).map (fun n => (n : Int))

/-- Lines 58-62: each string variable via `os.getenv(var, "")`, and the port
via `int(os.getenv("MAIL_PORT", "465"))`; the `int` conversion raises
`ValueError` (modelled as `Except.error`) on a non-integer string. -/
def readMailConfig (env : Env) : Except String MailConfig :=
  match pyInt (env.mail_port.getD "465") with
  | none =>
      .error ("ValueError: invalid literal for int() with base 10: " ++
        (env.mail_port.getD "465"))
  | some port =>
      .ok ⟨env.mail_host.getD "", port, env.mail_user.getD "",
        env.mail_pass.getD "", env.to_email.getD ""⟩

/-- Line 64, `all([host, port, user, pwd, to])`: every string non-empty and
the integer port non-zero (Python truthiness). -/
def MailConfig.complete (cfg : MailConfig) : Bool :=
  cfg.host != "" && cfg.port != 0 && cfg.user != "" && cfg.pwd != "" &&
    cfg.toAddr != ""

/-- Truthiness-and-trim test of line 41: `data.get(f) and str(data.get(f)).strip()`
is truthy iff the field is present, non-empty, and non-blank after trimming. -/
def fieldOk (v : Option String) : Bool :=
  match v with
  | none => false
  | some s => s != "" && pyStrip s != ""

/-- `data.get(f)` for the field names the handler uses. -/
def getField (p : Payload) (f : String) : Option String :=
  if f = "name" then p.name
  else if f = "email" then p.email
  else if f = "message" then p.message
  else if f = "service" then p.service
  else if f = "phone" then p.phone
  else none

/-- Line 40: the required-field tuple, in source order. -/
def requiredFields : List String := ["name", "email", "message", "service"]

/-- Line 41: the list of required fields that are missing or blank. -/
def missingFields (p : Payload) : List String :=
  requiredFields.filter (fun f => !(fieldOk (getField p f)))

/-- Python `", ".join(l)`. -/
def joinComma : List String → String
  | [] => ""
  | [x] => x
  | x :: y :: xs => x ++ ", " ++ joinComma (y :: xs)

/-- Lines 49-56: the plain-text email body, with the em-dash placeholder when
the stripped phone is empty. -/
def buildBody (now name email phone service message : String) : String :=
  "Time (UTC): " ++ now ++ "Z\n" ++
  "Name: " ++ name ++ "\n" ++
  "Email: " ++ email ++ "\n" ++
  "Phone: " ++ (if phone = "" then "—" else phone) ++ "\n" ++
  "Service: " ++ service ++ "\n\n" ++
  "Message:\n" ++ message ++ "\n"

/-- Network operations the handler may attempt (lines 76-83). -/
inductive NetEvent where
  | connectSSL
  | connectPlain
  | starttls
  | login
  | send
  | close
deriving DecidableEq, Repr

/-- Oracle for the SMTP server: for each operation, `none` means it succeeds
and `some e` means it raises an exception whose description is `e`. -/
structure SmtpBehavior where
  connectErr : Option String
  starttlsErr : Option String
  loginErr : Option String
  sendErr : Option String
deriving DecidableEq, Repr

/-- Outcome of the SMTP portion of the handler: the raised exception if any,
the trace of attempted network operations, whether a connection was
successfully opened, and whether it was closed. -/
structure SmtpOutcome where
  result : Except String Unit
  events : List NetEvent
  opened : Bool
  closed : Bool
deriving Repr

/-- Lines 76-83 of app.py.  Port 465 uses `smtplib.SMTP_SSL(host, port)`;
any other port uses `smtplib.SMTP(host, port)` followed by `smtp.starttls()`.
Only the `with smtp:` block (entered after `starttls`) guarantees a close:
an exception from `starttls` itself leaves the connection open, because the
`starttls()` call stands outside the `with` statement. -/
def runSmtp (port : Int) (b : SmtpBehavior) : SmtpOutcome :=
  if port = 465 then
    match b.connectErr with
    | some e => ⟨.error e, [.connectSSL], false, false⟩
    | none =>
      match b.loginErr with
      | some e => ⟨.error e, [.connectSSL, .login, .close], true, true⟩
      | none =>
        match b.sendErr with
        | some e => ⟨.error e, [.connectSSL, .login, .send, .close], true, true⟩
        | none => ⟨.ok (), [.connectSSL, .login, .send, .close], true, true⟩
  else
    match b.connectErr with
    | some e => ⟨.error e, [.connectPlain], false, false⟩
    | none =>
      match b.starttlsErr with
      | some e => ⟨.error e, [.connectPlain, .starttls], true, false⟩
      | none =>
        match b.loginErr with
        | some e => ⟨.error e, [.connectPlain, .starttls, .login, .close], true, true⟩
        | none =>
          match b.sendErr with
          | some e =>
              ⟨.error e, [.connectPlain, .starttls, .login, .send, .close], true, true⟩
          | none =>
              ⟨.ok (), [.connectPlain, .starttls, .login, .send, .close], true, true⟩

/-- Result of one handler invocation that returned an HTTP response: the
response, the network trace, whether an SMTP connection was opened and
whether it was closed, and the email message constructed (if control reached
the construction in lines 68-74). -/
structure HandlerResult where
  response : Response
  events : List NetEvent
  opened : Bool
  closed : Bool
  msg : Option EmailMsg
deriving DecidableEq, Repr

/-- Line 72-73: Reply-To is set only when `data.get("email")` is truthy. -/
def replyToOf (email : Option String) : Option String :=
  match email with
  | none => none
  | some e => if e = "" then none else some e

/-- The payload used when the request body is absent or not JSON:
`request.get_json(silent=True) or {}` yields the empty mapping. -/
def emptyPayload : Payload := ⟨none, none, none, none, none⟩

/-- The handler `contact` of app.py (lines 35-87).  `payload` is the decoded
JSON body (`none` when absent or invalid), `b` the SMTP oracle, `now` the
string `datetime.utcnow().isoformat()`.  `Except.error` is an exception
escaping the handler body (only the `int` conversion of `MAIL_PORT` can
raise outside the `try`); `Except.ok` carries the HTTP response and the
observed effects. -/
def contact (env : Env) (payload : Option Payload) (b : SmtpBehavior)
    (now : String) : Except String HandlerResult :=
  let data := payload.getD emptyPayload
  let missing := missingFields data
  if missing = [] then
    let phone := pyStrip (data.phone.getD "")
    let subject := "New Quote Request — " ++ (data.service.getD "")
    let body := buildBody now (data.name.getD "") (data.email.getD "") phone
      (data.service.getD "") (data.message.getD "")
    match readMailConfig env with
    | .error e => .error e
    | .ok cfg =>
      if cfg.complete then
        let msg : EmailMsg :=
          ⟨subject, cfg.user, cfg.toAddr, replyToOf data.email, body⟩
        let o := runSmtp cfg.port b
        match o.result with
        | .error e =>
            .ok ⟨⟨500, false, none, some ("Email send failed: " ++ e)⟩,
              o.events, o.opened, o.closed, some msg⟩
        | .ok _ =>
            .ok ⟨⟨200, true, some "Quote request sent", none⟩,
              o.events, o.opened, o.closed, some msg⟩
      else
        .ok ⟨⟨500, false, none, some "Mail server not configured"⟩,
          [], false, false, none⟩
  else
    .ok ⟨⟨400, false, none, some ("Missing: " ++ joinComma missing)⟩,
      [], false, false, none⟩

/-! ### Concrete fixtures used by witnesses and counterexamples -/

/-- The valid payload of the concrete scenario in the spec, phone absent. -/
def payloadOk : Payload := ⟨some "A", some "a@x.com", none, some "hi", some "roofing"⟩

/-- A payload whose name is the empty string. -/
def payloadNoName : Payload := ⟨some "", some "a@x.com", none, some "hi", some "roofing"⟩

/-- A complete environment with `MAIL_PORT=465`. -/
def envSSL : Env :=
  ⟨some "smtp.example.com", some "465", some "u@example.com", some "secret",
    some "dest@example.com", none, none⟩

/-- A complete environment with `MAIL_PORT=587`. -/
def envPlain : Env :=
  ⟨some "smtp.example.com", some "587", some "u@example.com", some "secret",
    some "dest@example.com", none, none⟩

/-- `envSSL` with `MAIL_HOST` unset. -/
def envNoHost : Env :=
  ⟨none, some "465", some "u@example.com", some "secret",
    some "dest@example.com", none, none⟩

/-- An environment with `MAIL_PORT` set to a non-integer string and every
other mail variable unset. -/
def envBadPort : Env := ⟨none, some "abc", none, none, none, none, none⟩

/-- SMTP oracle on which every operation succeeds. -/
def bAllOk : SmtpBehavior := ⟨none, none, none, none⟩

/-- SMTP oracle whose STARTTLS upgrade raises. -/
def bStarttlsFail : SmtpBehavior := ⟨none, some "tls handshake failed", none, none⟩

/-- SMTP oracle whose login raises. -/
def bLoginFail : SmtpBehavior := ⟨none, none, some "auth failed", none⟩

/-! ### Helper lemmas -/

/-- Every member of a list is a substring of its comma-join. -/
theorem joinComma_mem_decomp {f : String} :
    ∀ {l : List String}, f ∈ l → ∃ pre post, joinComma l = pre ++ f ++ post := by
  intro l
  induction l with
  | nil => intro h; cases h
  | cons x xs ih =>
    intro h
    rcases List.mem_cons.mp h with h | hmem
    · subst h
      cases xs with
      | nil => exact ⟨"", "", by simp [joinComma, String.append_empty, String.empty_append]⟩
      | cons y ys =>
        exact ⟨"", ", " ++ joinComma (y :: ys),
          by simp [joinComma, String.append_assoc, String.empty_append]⟩
    · cases xs with
      | nil => cases hmem
      | cons y ys =>
        obtain ⟨pre, post, hp⟩ := ih hmem
        exact ⟨x ++ ", " ++ pre, post,
          by simp [joinComma, hp, String.append_assoc]⟩

/-- On the path past validation and the configuration check, `contact` is the
SMTP run packaged with the built email message. -/
theorem contact_send_path (env : Env) (p : Payload) (b : SmtpBehavior)
    (now : String) (cfg : MailConfig)
    (hv : missingFields p = [])
    (hc : readMailConfig env = .ok cfg)
    (hcm : cfg.complete = true) :
    contact env (some p) b now =
      (match (runSmtp cfg.port b).result with
       | .error e =>
          .ok ⟨⟨500, false, none, some ("Email send failed: " ++ e)⟩,
            (runSmtp cfg.port b).events, (runSmtp cfg.port b).opened,
            (runSmtp cfg.port b).closed,
            some ⟨"New Quote Request — " ++ (p.service.getD ""), cfg.user,
              cfg.toAddr, replyToOf p.email,
              buildBody now (p.name.getD "") (p.email.getD "")
                (pyStrip (p.phone.getD "")) (p.service.getD "")
                (p.message.getD "")⟩⟩
       | .ok _ =>
          .ok ⟨⟨200, true, some "Quote request sent", none⟩,
            (runSmtp cfg.port b).events, (runSmtp cfg.port b).opened,
            (runSmtp cfg.port b).closed,
            some ⟨"New Quote Request — " ++ (p.service.getD ""), cfg.user,
              cfg.toAddr, replyToOf p.email,
              buildBody now (p.name.getD "") (p.email.getD "")
                (pyStrip (p.phone.getD "")) (p.service.getD "")
                (p.message.getD "")⟩⟩) := by
  unfold contact
  simp only [Option.getD_some, hv, hc, hcm]
  simp

/-! ### Claim theorems -/

/-- C2: for every payload in which some required field (name, email, message,
service) is missing or blank after trimming, the handler returns HTTP 400
with an error string that names every missing field (hence at least one),
and performs no SMTP network operation. -/
theorem contact_missing_field_400 (env : Env) (p : Payload) (b : SmtpBehavior)
    (now : String) (hm : missingFields p ≠ []) :
    ∃ r, contact env (some p) b now = .ok r ∧
      r.response.status = 400 ∧ r.response.success = false ∧
      r.events = [] ∧ r.opened = false ∧
      ∀ f ∈ missingFields p, ∃ pre post, r.response.error = some (pre ++ f ++ post) := by
  refine ⟨⟨⟨400, false, none, some ("Missing: " ++ joinComma (missingFields p))⟩,
    [], false, false, none⟩, ?_, rfl, rfl, rfl, rfl, ?_⟩
  · unfold contact
    simp only [Option.getD_some]
    rw [if_neg hm]
  · intro f hf
    obtain ⟨pre, post, hp⟩ := joinComma_mem_decomp hf
    exact ⟨"Missing: " ++ pre, post, by rw [hp]; simp [String.append_assoc]⟩

/-- C2 witness: the payload with empty name from the spec scenario yields a
400 response whose error mentions the field name `name`. -/
theorem contact_missing_field_400_witness :
    ∃ r, contact envSSL (some payloadNoName) bAllOk "T" = .ok r ∧
      r.response.status = 400 ∧ r.response.success = false ∧
      r.events = [] ∧ r.opened = false ∧
      ∀ f ∈ missingFields payloadNoName,
        ∃ pre post, r.response.error = some (pre ++ f ++ post) :=
  contact_missing_field_400 envSSL payloadNoName bAllOk "T" (by decide)

/-- C3: for every valid payload, if the resolved mail configuration is
incomplete (some string among host, user, password, recipient empty, or the
port zero), the handler returns HTTP 500 with error
"Mail server not configured" and attempts no network operation. -/
theorem contact_unconfigured_500 (env : Env) (p : Payload) (b : SmtpBehavior)
    (now : String) (cfg : MailConfig)
    (hv : missingFields p = [])
    (hc : readMailConfig env = .ok cfg)
    (hinc : cfg.complete = false) :
    contact env (some p) b now =
      .ok ⟨⟨500, false, none, some "Mail server not configured"⟩,
        [], false, false, none⟩ := by
  unfold contact
  simp only [Option.getD_some, hv, hc, hinc]
  simp

/-- C3 witness: valid payload, `MAIL_HOST` unset, every other mail variable
set: the handler returns the configuration error without any network event. -/
theorem contact_unconfigured_500_witness :
    contact envNoHost (some payloadOk) bAllOk "T" =
      .ok ⟨⟨500, false, none, some "Mail server not configured"⟩,
        [], false, false, none⟩ :=
  contact_unconfigured_500 envNoHost payloadOk bAllOk "T"
    ⟨"", 465, "u@example.com", "secret", "dest@example.com"⟩
    (by decide) rfl (by decide)

/-- C9: a POST whose body is absent or not valid JSON is handled as the empty
mapping: the response is HTTP 400 with error
"Missing: name, email, message, service", no exception is raised and no
network operation occurs. -/
theorem contact_no_json_400 (env : Env) (b : SmtpBehavior) (now : String) :
    contact env none b now =
      .ok ⟨⟨400, false, none, some "Missing: name, email, message, service"⟩,
        [], false, false, none⟩ := rfl

/-- C10: for every valid payload, if `MAIL_PORT` is set to a string that
`int` rejects, the handler body raises an uncaught `ValueError` (modelled as
`Except.error`) instead of returning any HTTP response, in particular not the
"Mail server not configured" one. -/
theorem contact_bad_mail_port_unhandled (env : Env) (p : Payload)
    (b : SmtpBehavior) (now : String) (s : String)
    (hv : missingFields p = [])
    (hp : env.mail_port = some s)
    (hbad : pyInt s = none) :
    contact env (some p) b now =
      .error ("ValueError: invalid literal for int() with base 10: " ++ s) := by
  unfold contact readMailConfig
  simp only [Option.getD_some, hv, hp, hbad]
  simp

/-- C10 witness: `MAIL_PORT="abc"` with every other mail variable unset and a
valid payload: the `int` conversion raises before the completeness check, so
the result is the uncaught exception, not the configuration-error response. -/
theorem contact_bad_mail_port_unhandled_witness :
    contact envBadPort (some payloadOk) bAllOk "T" =
      .error ("ValueError: invalid literal for int() with base 10: " ++ "abc") :=
  contact_bad_mail_port_unhandled envBadPort payloadOk bAllOk "T" "abc"
    (by decide) rfl (by decide)

/-- A connection-opening event (either constructor of lines 77 and 79). -/
def isConnect : NetEvent → Bool
  | .connectSSL => true
  | .connectPlain => true
  | _ => false

/-- With an empty phone, the body splits around the em-dash placeholder. -/
theorem buildBody_empty_phone (now n e s m : String) :
    buildBody now n e "" s m =
      ("Time (UTC): " ++ now ++ "Z\n" ++ "Name: " ++ n ++ "\n" ++ "Email: " ++
        e ++ "\n" ++ "Phone: ") ++ "—" ++
      ("\n" ++ "Service: " ++ s ++ "\n\n" ++ "Message:\n" ++ m ++ "\n") := by
  unfold buildBody
  rw [if_pos rfl]
  simp only [String.append_assoc]

/-- C1: for every valid payload and complete mail configuration, with an SMTP
server on which every operation succeeds, the handler opens exactly one SMTP
session, logs in exactly once, sends exactly one message, closes the
connection, and returns HTTP 200 with body success, message
"Quote request sent"; when phone is absent, the subject contains the service
value and the body contains the em-dash phone placeholder. -/
theorem contact_valid_success (env : Env) (p : Payload) (b : SmtpBehavior)
    (now : String) (cfg : MailConfig)
    (hv : missingFields p = [])
    (hc : readMailConfig env = .ok cfg)
    (hcm : cfg.complete = true)
    (hb : b = bAllOk) :
    ∃ r, contact env (some p) b now = .ok r ∧
      r.response = ⟨200, true, some "Quote request sent", none⟩ ∧
      (r.events.filter isConnect).length = 1 ∧
      r.events.count .login = 1 ∧
      r.events.count .send = 1 ∧
      r.opened = true ∧ r.closed = true ∧
      (p.phone = none →
        ∃ m, r.msg = some m ∧
          (∃ pre post, m.subject = pre ++ (p.service.getD "") ++ post) ∧
          (∃ pre post, m.content = pre ++ "—" ++ post)) := by
  subst hb
  rw [contact_send_path env p bAllOk now cfg hv hc hcm]
  have hmsg : ∀ hph : p.phone = none,
      (∃ pre post, ("New Quote Request — " ++ (p.service.getD "") : String) =
        pre ++ (p.service.getD "") ++ post) ∧
      (∃ pre post, buildBody now (p.name.getD "") (p.email.getD "")
          (pyStrip (p.phone.getD "")) (p.service.getD "") (p.message.getD "") =
        pre ++ "—" ++ post) := by
    intro hph
    constructor
    · exact ⟨"New Quote Request — ", "", by simp [String.append_empty]⟩
    · rw [hph, show pyStrip ((none : Option String).getD "") = "" from rfl]
      exact ⟨_, _, buildBody_empty_phone now (p.name.getD "") (p.email.getD "")
        (p.service.getD "") (p.message.getD "")⟩
  by_cases hp : cfg.port = 465
  · rw [show (runSmtp cfg.port bAllOk) = runSmtp 465 bAllOk from by rw [hp]]
    refine ⟨_, rfl, rfl, by rfl, by rfl, by rfl, rfl, rfl, ?_⟩
    intro hph
    exact ⟨_, rfl, hmsg hph⟩
  · rw [show (runSmtp cfg.port bAllOk) =
      ⟨.ok (), [.connectPlain, .starttls, .login, .send, .close], true, true⟩
      from by simp [runSmtp, hp, bAllOk]]
    refine ⟨_, rfl, rfl, by rfl, by rfl, by rfl, rfl, rfl, ?_⟩
    intro hph
    exact ⟨_, rfl, hmsg hph⟩

/-- C1 witness: the concrete scenario of the spec (name A, email a@x.com, message
hi, service roofing, phone absent) with a complete port-465 configuration. -/
theorem contact_valid_success_witness :
    ∃ r, contact envSSL (some payloadOk) bAllOk "2024-01-01T00:00:00" = .ok r ∧
      r.response = ⟨200, true, some "Quote request sent", none⟩ ∧
      (r.events.filter isConnect).length = 1 ∧
      r.events.count .login = 1 ∧
      r.events.count .send = 1 ∧
      r.opened = true ∧ r.closed = true ∧
      (payloadOk.phone = none →
        ∃ m, r.msg = some m ∧
          (∃ pre post, m.subject = pre ++ (payloadOk.service.getD "") ++ post) ∧
          (∃ pre post, m.content = pre ++ "—" ++ post)) :=
  contact_valid_success envSSL payloadOk bAllOk "2024-01-01T00:00:00"
    ⟨"smtp.example.com", 465, "u@example.com", "secret", "dest@example.com"⟩
    (by decide) rfl (by decide) rfl

/-- C4: for every valid payload and complete configuration, if the SMTP run
raises at any step (connect, STARTTLS, login, or send), the handler catches
the exception and returns HTTP 500 whose error string carries the underlying
failure description; it never terminates with an unhandled exception. -/
theorem contact_smtp_error_500 (env : Env) (p : Payload) (b : SmtpBehavior)
    (now : String) (cfg : MailConfig) (e : String)
    (hv : missingFields p = [])
    (hc : readMailConfig env = .ok cfg)
    (hcm : cfg.complete = true)
    (he : (runSmtp cfg.port b).result = .error e) :
    ∃ r, contact env (some p) b now = .ok r ∧
      r.response.status = 500 ∧ r.response.success = false ∧
      r.response.error = some ("Email send failed: " ++ e) := by
  rw [contact_send_path env p b now cfg hv hc hcm, he]
  exact ⟨_, rfl, rfl, rfl, rfl⟩

/-- C4 witness: a failing login on a complete port-465 configuration yields
the 500 response carrying the failure description. -/
theorem contact_smtp_error_500_witness :
    ∃ r, contact envSSL (some payloadOk) bLoginFail "T" = .ok r ∧
      r.response.status = 500 ∧ r.response.success = false ∧
      r.response.error = some ("Email send failed: " ++ "auth failed") :=
  contact_smtp_error_500 envSSL payloadOk bLoginFail "T"
    ⟨"smtp.example.com", 465, "u@example.com", "secret", "dest@example.com"⟩
    "auth failed" (by decide) rfl (by decide) rfl

/-- C5: the transport is selected solely by the configured port: with port
465 the first network operation is the implicit-TLS connect and no STARTTLS
or plaintext connect ever occurs; with any other port the first operation is
the plaintext connect, no implicit-TLS connect occurs, and whenever a login
happens a STARTTLS upgrade precedes it immediately after the connect. -/
theorem runSmtp_transport (port : Int) (b : SmtpBehavior) :
    (port = 465 →
      (runSmtp port b).events.head? = some .connectSSL ∧
      .connectPlain ∉ (runSmtp port b).events ∧
      .starttls ∉ (runSmtp port b).events) ∧
    (port ≠ 465 →
      (runSmtp port b).events.head? = some .connectPlain ∧
      .connectSSL ∉ (runSmtp port b).events ∧
      (.login ∈ (runSmtp port b).events →
        (runSmtp port b).events.take 3 = [.connectPlain, .starttls, .login])) := by
  obtain ⟨c, st, l, s⟩ := b
  constructor
  · intro hp
    subst hp
    cases c <;> cases l <;> cases s <;> simp [runSmtp]
  · intro hp
    cases c <;> cases st <;> cases l <;> cases s <;> simp [runSmtp, hp]

/-- C5 witness: with port 465 and an all-success server the run starts with
the implicit-TLS connect and never upgrades, and with port 587 it starts
with the plaintext connect and upgrades before the login. -/
theorem runSmtp_transport_witness :
    ((runSmtp 465 bAllOk).events.head? = some .connectSSL ∧
      .connectPlain ∉ (runSmtp 465 bAllOk).events ∧
      .starttls ∉ (runSmtp 465 bAllOk).events) ∧
    ((runSmtp 587 bAllOk).events.head? = some .connectPlain ∧
      .connectSSL ∉ (runSmtp 587 bAllOk).events ∧
      (.login ∈ (runSmtp 587 bAllOk).events →
        (runSmtp 587 bAllOk).events.take 3 =
          [.connectPlain, .starttls, .login])) :=
  ⟨(runSmtp_transport 465 bAllOk).1 rfl, (runSmtp_transport 587 bAllOk).2 (by decide)⟩

/-- C6 counterexample: on a non-465 port, a STARTTLS failure occurs after the
connection is opened but before the `with smtp:` scope is entered, so the
handler returns with the connection still open. -/
theorem contact_starttls_leaves_open_cex :
    ∃ r, contact envPlain (some payloadOk) bStarttlsFail "T" = .ok r ∧
      r.opened = true ∧ r.closed = false :=
  ⟨_, rfl, rfl, rfl⟩

/-- An opened SMTP run closes its connection provided the run did not fail in
the STARTTLS upgrade (port 465 never attempts one). -/
theorem runSmtp_closed_of (port : Int) (b : SmtpBehavior)
    (ho : (runSmtp port b).opened = true)
    (hs : port = 465 ∨ b.starttlsErr = none) :
    (runSmtp port b).closed = true := by
  obtain ⟨c, st, l, s⟩ := b
  by_cases hp : port = 465
  · subst hp
    cases c <;> cases l <;> cases s <;> simp_all [runSmtp]
  · rcases hs with hs | hs
    · exact absurd hs hp
    · simp only at hs
      subst hs
      cases c <;> cases l <;> cases s <;> simp_all [runSmtp]

/-- C6 amended: on every execution that opens an SMTP connection, the
connection is closed on success, on a login failure, and on a send failure;
the STARTTLS-failure path (possible only on a non-465 port) is the one exit
that leaves the connection open. -/
theorem contact_connection_closed (env : Env) (p : Option Payload)
    (b : SmtpBehavior) (now : String) (cfg : MailConfig) (r : HandlerResult)
    (hc : readMailConfig env = .ok cfg)
    (hr : contact env p b now = .ok r)
    (ho : r.opened = true)
    (hs : cfg.port = 465 ∨ b.starttlsErr = none) :
    r.closed = true := by
  rcases p with _ | p
  · have h0 : contact env none b now =
        .ok ⟨⟨400, false, none, some "Missing: name, email, message, service"⟩,
          [], false, false, none⟩ := rfl
    rw [h0] at hr
    injection hr with h
    subst h
    exact absurd ho (by decide)
  · by_cases hm : missingFields p = []
    · by_cases hcm : cfg.complete = true
      · rw [contact_send_path env p b now cfg hm hc hcm] at hr
        rcases hres : (runSmtp cfg.port b).result with e | u <;>
          rw [hres] at hr <;> injection hr with h <;> subst h <;>
          exact runSmtp_closed_of cfg.port b ho hs
      · have hcm2 : cfg.complete = false := by
          cases h2 : cfg.complete
          · rfl
          · exact absurd h2 hcm
        have h0 : contact env (some p) b now =
            .ok ⟨⟨500, false, none, some "Mail server not configured"⟩,
              [], false, false, none⟩ := by
          unfold contact
          simp only [Option.getD_some, hm, hc, hcm2]
          simp
        rw [h0] at hr
        injection hr with h
        subst h
        exact absurd ho (by decide)
    · have h0 : contact env (some p) b now =
          .ok ⟨⟨400, false, none,
            some ("Missing: " ++ joinComma (missingFields p))⟩,
            [], false, false, none⟩ := by
        unfold contact
        simp only [Option.getD_some]
        rw [if_neg hm]
      rw [h0] at hr
      injection hr with h
      subst h
      simp at ho

/-- C6 amended witness: a successful run on port 587 closes the connection. -/
theorem contact_connection_closed_witness :
    ∃ r, contact envPlain (some payloadOk) bAllOk "T" = .ok r ∧
      r.closed = true := by
  refine ⟨_, rfl, ?_⟩
  exact contact_connection_closed envPlain (some payloadOk) bAllOk "T"
    ⟨"smtp.example.com", 587, "u@example.com", "secret", "dest@example.com"⟩
    _ rfl rfl rfl (Or.inr rfl)

/-- C7 counterexample: on the concrete valid payload of the spec the constructed
body does not end with the service value (nor with it followed by a
newline): the message section comes after the Service line. -/
theorem contact_body_service_not_appended_cex :
    ∃ r m, contact envSSL (some payloadOk) bAllOk "2024-01-01T00:00:00" = .ok r ∧
      r.msg = some m ∧
      "roofing".data.isSuffixOf m.content.data = false ∧
      ("roofing" ++ "\n").data.isSuffixOf m.content.data = false :=
  ⟨_, _, rfl, rfl, by decide, by decide⟩

/-- A payload passing validation has all four required fields truthy. -/
theorem missingFields_nil_fieldOk (p : Payload) (hv : missingFields p = []) :
    fieldOk p.name = true ∧ fieldOk p.email = true ∧
    fieldOk p.message = true ∧ fieldOk p.service = true := by
  have h := List.filter_eq_nil_iff.mp hv
  have hn := h "name" (by decide)
  have he := h "email" (by decide)
  have hm := h "message" (by decide)
  have hs := h "service" (by decide)
  rw [show getField p "name" = p.name from rfl] at hn
  rw [show getField p "email" = p.email from rfl] at he
  rw [show getField p "message" = p.message from rfl] at hm
  rw [show getField p "service" = p.service from rfl] at hs
  simp only [Bool.not_eq_true', Bool.not_eq_false] at hn he hm hs
  exact ⟨hn, he, hm, hs⟩

/-- A truthy email field is carried into Reply-To unchanged. -/
theorem replyToOf_of_fieldOk (v : Option String) (h : fieldOk v = true) :
    replyToOf v = v := by
  cases v with
  | none => simp [fieldOk] at h
  | some s =>
    simp only [fieldOk, Bool.and_eq_true, bne_iff_ne, ne_eq] at h
    simp [replyToOf, h.1]

/-- The body decomposes at the timestamp prefix and the Service-then-Message
tail. -/
theorem buildBody_decomp (now n e ph s ms : String) :
    (∃ rest, buildBody now n e ph s ms =
      "Time (UTC): " ++ now ++ "Z\n" ++ rest) ∧
    (∃ pre, buildBody now n e ph s ms =
      pre ++ ("Service: " ++ s ++ "\n\n" ++ "Message:\n" ++ ms ++ "\n")) := by
  constructor
  · refine ⟨"Name: " ++ n ++ "\n" ++ "Email: " ++ e ++ "\n" ++ "Phone: " ++
      (if ph = "" then "—" else ph) ++ "\n" ++ "Service: " ++ s ++ "\n\n" ++
      "Message:\n" ++ ms ++ "\n", ?_⟩
    unfold buildBody
    simp only [String.append_assoc]
  · refine ⟨"Time (UTC): " ++ now ++ "Z\n" ++ "Name: " ++ n ++ "\n" ++
      "Email: " ++ e ++ "\n" ++ "Phone: " ++ (if ph = "" then "—" else ph) ++
      "\n", ?_⟩
    unfold buildBody
    simp only [String.append_assoc]

/-- The body splits around the Name line. -/
theorem buildBody_name_line (now n e ph s ms : String) :
    buildBody now n e ph s ms =
      ("Time (UTC): " ++ now ++ "Z\n") ++ ("Name: " ++ n ++ "\n") ++
      ("Email: " ++ e ++ "\n" ++ "Phone: " ++ (if ph = "" then "—" else ph) ++
        "\n" ++ "Service: " ++ s ++ "\n\n" ++ "Message:\n" ++ ms ++ "\n") := by
  unfold buildBody
  simp only [String.append_assoc]

/-- The body splits around the Email line. -/
theorem buildBody_email_line (now n e ph s ms : String) :
    buildBody now n e ph s ms =
      ("Time (UTC): " ++ now ++ "Z\n" ++ "Name: " ++ n ++ "\n") ++
      ("Email: " ++ e ++ "\n") ++
      ("Phone: " ++ (if ph = "" then "—" else ph) ++ "\n" ++ "Service: " ++
        s ++ "\n\n" ++ "Message:\n" ++ ms ++ "\n") := by
  unfold buildBody
  simp only [String.append_assoc]

/-- With a non-empty phone, the body splits around the Phone line carrying
that phone value. -/
theorem buildBody_phone_present (now n e ph s ms : String) (h : ¬ ph = "") :
    buildBody now n e ph s ms =
      ("Time (UTC): " ++ now ++ "Z\n" ++ "Name: " ++ n ++ "\n" ++ "Email: " ++
        e ++ "\n") ++ ("Phone: " ++ ph ++ "\n") ++
      ("Service: " ++ s ++ "\n\n" ++ "Message:\n" ++ ms ++ "\n") := by
  unfold buildBody
  rw [if_neg h]
  simp only [String.append_assoc]

/-- The body ends with the Phone line, then the Service line, then the
Message section. -/
theorem buildBody_phone_service_tail (now n e ph s ms : String) :
    buildBody now n e ph s ms =
      ("Time (UTC): " ++ now ++ "Z\n" ++ "Name: " ++ n ++ "\n" ++ "Email: " ++
        e ++ "\n") ++
      ("Phone: " ++ (if ph = "" then "—" else ph) ++ "\n" ++ "Service: " ++
        s ++ "\n\n" ++ "Message:\n" ++ ms ++ "\n") := by
  unfold buildBody
  simp only [String.append_assoc]

/-- C7 amended: for every valid payload on the send path, the message has
From = configured username, To = configured recipient, Reply-To = the
submitter email; the body prepends the UTC timestamp and contains the Name
line, the Email line, the Phone line (carrying the stripped phone value when
present and non-blank, the em-dash placeholder when phone is absent) and the
Message section, and the service value appears on the Service line directly
after the Phone line and immediately before the Message section, which ends
the body (the service value is not appended at the end). -/
theorem contact_email_headers_body (env : Env) (p : Payload) (b : SmtpBehavior)
    (now : String) (cfg : MailConfig) (r : HandlerResult) (m : EmailMsg)
    (hv : missingFields p = [])
    (hc : readMailConfig env = .ok cfg)
    (hcm : cfg.complete = true)
    (hr : contact env (some p) b now = .ok r)
    (hm : r.msg = some m) :
    m.subject = "New Quote Request — " ++ (p.service.getD "") ∧
    m.fromAddr = cfg.user ∧
    m.toAddr = cfg.toAddr ∧
    m.replyTo = p.email ∧
    (∃ rest, m.content = "Time (UTC): " ++ now ++ "Z\n" ++ rest) ∧
    (∃ pre post, m.content =
      pre ++ ("Name: " ++ (p.name.getD "") ++ "\n") ++ post) ∧
    (∃ pre post, m.content =
      pre ++ ("Email: " ++ (p.email.getD "") ++ "\n") ++ post) ∧
    (∀ ph, p.phone = some ph → ¬ pyStrip ph = "" →
      ∃ pre post, m.content = pre ++ ("Phone: " ++ pyStrip ph ++ "\n") ++ post) ∧
    (p.phone = none → ∃ pre post, m.content = pre ++ "—" ++ post) ∧
    (∃ pre, m.content = pre ++
      ("Phone: " ++ (if pyStrip (p.phone.getD "") = "" then "—"
          else pyStrip (p.phone.getD "")) ++ "\n" ++ "Service: " ++
        (p.service.getD "") ++ "\n\n" ++ "Message:\n" ++
        (p.message.getD "") ++ "\n")) ∧
    (∃ pre, m.content = pre ++ ("Service: " ++ (p.service.getD "") ++ "\n\n" ++
      "Message:\n" ++ (p.message.getD "") ++ "\n")) := by
  have hmsg : m = ⟨"New Quote Request — " ++ (p.service.getD ""), cfg.user,
      cfg.toAddr, replyToOf p.email,
      buildBody now (p.name.getD "") (p.email.getD "")
        (pyStrip (p.phone.getD "")) (p.service.getD "") (p.message.getD "")⟩ := by
    rw [contact_send_path env p b now cfg hv hc hcm] at hr
    rcases hres : (runSmtp cfg.port b).result with e | u <;>
      rw [hres] at hr <;> injection hr with h <;> subst h <;>
      injection hm with h2 <;> exact h2.symm
  subst hmsg
  refine ⟨rfl, rfl, rfl, ?_, ?_, ?_, ?_, ?_, ?_, ?_, ?_⟩
  · exact replyToOf_of_fieldOk p.email (missingFields_nil_fieldOk p hv).2.1
  · exact (buildBody_decomp now (p.name.getD "") (p.email.getD "")
      (pyStrip (p.phone.getD "")) (p.service.getD "") (p.message.getD "")).1
  · exact ⟨_, _, buildBody_name_line now (p.name.getD "") (p.email.getD "")
      (pyStrip (p.phone.getD "")) (p.service.getD "") (p.message.getD "")⟩
  · exact ⟨_, _, buildBody_email_line now (p.name.getD "") (p.email.getD "")
      (pyStrip (p.phone.getD "")) (p.service.getD "") (p.message.getD "")⟩
  · intro ph hph hne
    rw [hph]
    exact ⟨_, _, buildBody_phone_present now (p.name.getD "") (p.email.getD "")
      (pyStrip ph) (p.service.getD "") (p.message.getD "") hne⟩
  · intro hph
    rw [hph, show pyStrip ((none : Option String).getD "") = "" from rfl]
    exact ⟨_, _, buildBody_empty_phone now (p.name.getD "") (p.email.getD "")
      (p.service.getD "") (p.message.getD "")⟩
  · exact ⟨_, buildBody_phone_service_tail now (p.name.getD "")
      (p.email.getD "") (pyStrip (p.phone.getD "")) (p.service.getD "")
      (p.message.getD "")⟩
  · exact (buildBody_decomp now (p.name.getD "") (p.email.getD "")
      (pyStrip (p.phone.getD "")) (p.service.getD "") (p.message.getD "")).2

/-- C7 amended witness: the concrete valid payload on the complete port-465
configuration, exercising the subject, Reply-To, timestamp prefix, Name line
and Phone-Service-Message tail conclusions. -/
theorem contact_email_headers_body_witness :
    ∃ r m, contact envSSL (some payloadOk) bAllOk "2024" = .ok r ∧
      r.msg = some m ∧
      m.subject = "New Quote Request — " ++ (payloadOk.service.getD "") ∧
      m.replyTo = payloadOk.email ∧
      (∃ rest, m.content = "Time (UTC): " ++ "2024" ++ "Z\n" ++ rest) ∧
      (∃ pre post, m.content =
        pre ++ ("Name: " ++ (payloadOk.name.getD "") ++ "\n") ++ post) ∧
      (∃ pre, m.content = pre ++
        ("Phone: " ++ (if pyStrip (payloadOk.phone.getD "") = "" then "—"
            else pyStrip (payloadOk.phone.getD "")) ++ "\n" ++ "Service: " ++
          (payloadOk.service.getD "") ++ "\n\n" ++ "Message:\n" ++
          (payloadOk.message.getD "") ++ "\n")) := by
  refine ⟨_, _, rfl, rfl, ?_⟩
  have h := contact_email_headers_body envSSL payloadOk bAllOk "2024"
    ⟨"smtp.example.com", 465, "u@example.com", "secret", "dest@example.com"⟩
    _ _ (by decide) rfl (by decide) rfl rfl
  exact ⟨h.1, h.2.2.2.1, h.2.2.2.2.1, h.2.2.2.2.2.1, h.2.2.2.2.2.2.2.2.2.1⟩

/-- An environment identical to `envSSL` on the five mail variables but with
the process bind port and debug flag set. -/
def envSSLAltBind : Env :=
  ⟨some "smtp.example.com", some "465", some "u@example.com", some "secret",
    some "dest@example.com", some "8080", some "0"⟩

/-- C8 counterexample: the configuration is read inside the handler (lines
58-62), not once at startup: two requests handled by the same process while
the environment differs (here `MAIL_HOST` set vs unset) resolve different
configurations and produce different responses for the same payload. -/
theorem contact_rereads_environment_cex :
    (readMailConfig envSSL).toOption ≠ (readMailConfig envNoHost).toOption ∧
    ∃ r1 r2, contact envSSL (some payloadOk) bAllOk "T" = .ok r1 ∧
      contact envNoHost (some payloadOk) bAllOk "T" = .ok r2 ∧
      r1.response ≠ r2.response :=
  ⟨by decide, _, _, rfl, rfl, by decide⟩

/-- C8 amended: the handler re-reads the environment on every request; its
result depends on the environment only through the five mail variables, so
two requests handled with those five variables unchanged (whatever the other
variables do) use identical configuration values and behave identically. -/
theorem contact_depends_only_on_mail_env (e1 e2 : Env) (p : Option Payload)
    (b : SmtpBehavior) (now : String)
    (h1 : e1.mail_host = e2.mail_host) (h2 : e1.mail_port = e2.mail_port)
    (h3 : e1.mail_user = e2.mail_user) (h4 : e1.mail_pass = e2.mail_pass)
    (h5 : e1.to_email = e2.to_email) :
    readMailConfig e1 = readMailConfig e2 ∧
    contact e1 p b now = contact e2 p b now := by
  have hc : readMailConfig e1 = readMailConfig e2 := by
    unfold readMailConfig
    rw [h2, h1, h3, h4, h5]
  refine ⟨hc, ?_⟩
  unfold contact
  rw [hc]

/-- C8 amended witness: two environments equal on the mail variables but
differing in bind port and debug flag give identical behavior. -/
theorem contact_depends_only_on_mail_env_witness :
    readMailConfig envSSL = readMailConfig envSSLAltBind ∧
    contact envSSL (some payloadOk) bAllOk "T" =
      contact envSSLAltBind (some payloadOk) bAllOk "T" :=
  contact_depends_only_on_mail_env envSSL envSSLAltBind (some payloadOk)
    bAllOk "T" rfl rfl rfl rfl rfl
